import Mathlib

/-!
Shallow embedding of `actions/python/quality-report/src/builder.py`:
the six artifact parsers and the aggregation / blocking-decision logic.

Python values decoded from JSON are modelled by the inductive `Json`;
Python `int()` / `float()` coercions, truthiness (`x or default`) and
`dict.get` are modelled by explicit functions.  Fallible Python code
(code that can raise) is modelled in the `Except Unit` monad: `.error ()`
stands for an uncaught exception.  File system state is modelled per
input file: a JSON input file is missing, blank (empty or
whitespace-only), invalid (present, non-blank, but `json.loads` raises),
or parsed to a `Json` value.
-/

/-- A decoded JSON value (the result of Python's `json.loads`).
Numbers are modelled by rationals, covering both ints and floats. -/
inductive Json where
  | null : Json
  | bool (b : Bool) : Json
  | num (q : ℚ) : Json
  | str (s : String) : Json
  | arr (xs : List Json) : Json
  | obj (kvs : List (String × Json)) : Json
deriving Repr

/-- Lookup of a key in a decoded JSON object.  `json.loads` keeps the
last binding of a duplicated key, hence the lookup on the reversed list. -/
def jlookup (kvs : List (String × Json)) (k : String) : Option Json :=
  kvs.reverse.lookup k

/-- Python truthiness of a decoded JSON value: `None`, `False`, `0`,
`""`, `[]` and `{}` are falsy, everything else truthy. -/
def pyFalsy : Json → Bool
  | .null => true
  | .bool b => !b
  | .num q => q == 0
  | .str s => s == ""
  | .arr xs => xs.isEmpty
  | .obj kvs => kvs.isEmpty

/-- Python's `v or d`: `d` when `v` is falsy, else `v`. -/
def pyOr (v d : Json) : Json :=
  if pyFalsy v then d else v

/-- Characters of a string with leading and trailing whitespace removed. -/
def trimChars (cs : List Char) : List Char :=
  ((cs.dropWhile Char.isWhitespace).reverse.dropWhile Char.isWhitespace).reverse

/-- Python `s.strip()` on a string (whitespace on both ends removed). -/
def pyStripS (s : String) : String :=
  ⟨trimChars s.data⟩

/-- Python `s.lower()` on a string. -/
def lowerStr (s : String) : String :=
  ⟨s.data.map Char.toLower⟩

/-- Splitting of a character list at every occurrence of a separator,
Python's `s.split(sep)`: `splitOnChar c []` is `[[]]` as Python's
`"".split(sep)` is `[""]`. -/
def splitOnChar (sep : Char) : List Char → List (List Char)
  | [] => [[]]
  | c :: cs =>
    match splitOnChar sep cs with
    | [] => if c = sep then [[], [c]] else [[c]]
    | g :: gs => if c = sep then [] :: g :: gs else (c :: g) :: gs

/-- Digits of a non-empty all-digit character list, as a number. -/
def parseDigits (cs : List Char) : Option Nat :=
  if cs.isEmpty then none
  else cs.foldl
    (fun acc c =>
      acc.bind fun n => if c.isDigit then some (n * 10 + (c.toNat - 48)) else none)
    (some 0)

/-- Python `int(s)` on a string: surrounding whitespace stripped, optional
sign, then decimal digits; anything else raises `ValueError`.
(Python's underscore digit separators are not modelled.) -/
def pyIntStr (s : String) : Option Int :=
  match trimChars s.data with
  | '+' :: rest => (parseDigits rest).map Int.ofNat
  | '-' :: rest => (parseDigits rest).map fun n => -(n : Int)
  | cs => (parseDigits cs).map Int.ofNat

/-- Truncation of a rational toward zero, the behaviour of Python's
`int()` on a float. -/
def pyTrunc (q : ℚ) : Int :=
  if 0 ≤ q then ⌊q⌋ else ⌈q⌉

/-- Python `int(v)` on a decoded JSON value: bools and numbers coerce
(floats truncate toward zero), integer-looking strings parse, and
`None`, lists, dicts and non-numeric strings raise. -/
def pyInt : Json → Except Unit Int
  | .bool b => .ok (if b then 1 else 0)
  | .num q => .ok (pyTrunc q)
  | .str s =>
    match pyIntStr s with
    | some n => .ok n
    | none => .error ()
  | _ => .error ()

/-- Python `float(s)` on a string: optional sign, decimal digits with an
optional fractional part.  (Exponent notation and `inf`/`nan` are not
modelled; no claim depends on them.) -/
def pyFloatStr (s : String) : Option ℚ :=
  let body : List Char → Option ℚ := fun cs =>
    match splitOnChar '.' cs with
    | [ip] => (parseDigits ip).map fun n => (n : ℚ)
    | [ip, fp] =>
      if ip.isEmpty && fp.isEmpty then none
      else
        let ipn : Option Nat := if ip.isEmpty then some 0 else parseDigits ip
        let fpn : Option Nat := if fp.isEmpty then some 0 else parseDigits fp
        ipn.bind fun i => fpn.map fun f => (i : ℚ) + (f : ℚ) / ((10 : ℚ) ^ fp.length)
    | _ => none
  match trimChars s.data with
  | '+' :: rest => body rest
  | '-' :: rest => (body rest).map Neg.neg
  | cs => body cs

/-- Python `float(v)` on a decoded JSON value. -/
def pyFloat : Json → Except Unit ℚ
  | .bool b => .ok (if b then 1 else 0)
  | .num q => .ok q
  | .str s =>
    match pyFloatStr s with
    | some q => .ok q
    | none => .error ()
  | _ => .error ()

/-- Python `d.get(k, default)`: a key lookup when `d` is a dict,
an `AttributeError` otherwise. -/
def Json.dget : Json → String → Json → Except Unit Json
  | .obj kvs, k, d => .ok ((jlookup kvs k).getD d)
  | _, _, _ => .error ()

/-- Rounding of a rational to two decimal places, the model of
Python's `round(x, 2)`. -/
def roundq2 (q : ℚ) : ℚ :=
  (round (q * 100) : ℚ) / 100

/-- Fixed truncation limit for all list-valued report sections
(`MAX_ITEMS` in the source). -/
def MAX_ITEMS : Nat := 50

/-- Severity scale of the security scanner (`SEVERITY_ORDER`). -/
def SEVERITY_ORDER : List (String × Nat) :=
  [("none", 0), ("low", 1), ("medium", 2), ("high", 3)]

/-- Model of `SEVERITY_ORDER.get(s, 0)`. -/
def sevOrd (s : String) : Nat :=
  ((SEVERITY_ORDER.lookup s).getD 0)

/-- State of one JSON input artifact on disk. -/
inductive JsonFile where
  | missing : JsonFile
  | blank : JsonFile
  | invalid : JsonFile
  | parsed (j : Json) : JsonFile

/-- `read_json`: a missing file or a file whose stripped contents are
empty yields `{}`; otherwise the file is decoded, and an undecodable
file raises. -/
def read_json : JsonFile → Except Unit Json
  | .missing => .ok (.obj [])
  | .blank => .ok (.obj [])
  | .invalid => .error ()
  | .parsed j => .ok j

/-- `parse_ruff`: the decoded array verbatim, or `[]` when the root is
not an array. -/
def parse_ruff (f : JsonFile) : Except Unit (List Json) := do
  let data ← read_json f
  match data with
  | .arr xs => pure xs
  | _ => pure []

/-- One normalized pyright diagnostic.  The carried fields are kept as
decoded JSON values, as the source copies them without coercion. -/
structure Diag where
  file : Json
  line : Int
  severity : Json
  rule : Json
  message : Json
deriving Repr

/-- Normalization of one raw pyright diagnostic: empty-string defaults
for absent fields and `line = start.line + 1`. -/
def normDiag (d : Json) : Except Unit Diag := do
  let fr := pyOr (← d.dget "file" .null) (.str "")
  let msg := pyOr (← d.dget "message" .null) (.str "")
  let sev := pyOr (← d.dget "severity" .null) (.str "")
  let rule := pyOr (← d.dget "rule" .null) (.str "")
  let rng := pyOr (← d.dget "range" .null) (.obj [])
  let start := pyOr (← rng.dget "start" .null) (.obj [])
  let line ← pyInt (pyOr (← start.dget "line" (.num 0)) (.num 0))
  pure ⟨fr, line + 1, sev, rule, msg⟩

/-- `parse_pyright`: summary error/warning counts through Python `int()`
and the first `MAX_ITEMS` diagnostics normalized. -/
def parse_pyright (f : JsonFile) : Except Unit (Int × Int × List Diag) := do
  let data ← read_json f
  match data with
  | .obj _ =>
    let summary := pyOr (← data.dget "summary" (.obj [])) (.obj [])
    let errors ← pyInt (pyOr (← summary.dget "errorCount" (.num 0)) (.num 0))
    let warnings ← pyInt (pyOr (← summary.dget "warningCount" (.num 0)) (.num 0))
    let diagsJ := pyOr (← data.dget "generalDiagnostics" (.arr [])) (.arr [])
    match diagsJ with
    | .arr xs => do
      let normalized ← (xs.take MAX_ITEMS).mapM normDiag
      pure (errors, warnings, normalized)
    | _ => .error ()
  | _ => pure (0, 0, [])

/-- An XML element as `xml.etree.ElementTree` presents it: tag,
attributes, the text before the first child (`None` when absent), and
the child elements in document order. -/
inductive Xml where
  | node (tag : String) (attrs : List (String × String)) (text : Option String)
      (children : List Xml)

/-- Tag of an element. -/
def Xml.tag : Xml → String
  | .node t _ _ _ => t

/-- Attribute map of an element. -/
def Xml.attrs : Xml → List (String × String)
  | .node _ a _ _ => a

/-- Leading text of an element. -/
def Xml.text : Xml → Option String
  | .node _ _ tx _ => tx

/-- Child elements of an element. -/
def Xml.children : Xml → List Xml
  | .node _ _ _ ch => ch

mutual
/-- Model of `element.iter(tag)`: the element itself and all its
descendants with the given tag, in document order. -/
def iterTag (t : String) : Xml → List Xml
  | .node tg a tx ch =>
    (if tg = t then [Xml.node tg a tx ch] else []) ++ iterTagList t ch

/-- `iterTag` mapped over a list of elements. -/
def iterTagList (t : String) : List Xml → List Xml
  | [] => []
  | x :: xs => iterTag t x ++ iterTagList t xs
end

/-- Model of `element.findall(tag)`: the direct children with the
given tag, in document order. -/
def findallTag (x : Xml) (t : String) : List Xml :=
  x.children.filter fun c => c.tag == t

/-- Model of `element.attrib.get(k, 0) or 0` followed by `int(...)`:
an absent or empty attribute counts 0, a decimal attribute parses, and
any other attribute raises `ValueError`. -/
def attrInt (attrs : List (String × String)) (k : String) : Except Unit Int :=
  match List.lookup k attrs with
  | none => .ok 0
  | some s =>
    if s = "" then .ok 0
    else
      match pyIntStr s with
      | some n => .ok n
      | none => .error ()

/-- One failed test of the JUnit report. -/
structure FailedTest where
  nodeid : String
  message : String
deriving Repr, DecidableEq

/-- The `FailedTest` records emitted for one `testcase` element: one per
`failure` or `error` child, with the nodeid/message rules of the source. -/
def failedTestsOfCase (case : Xml) : List FailedTest :=
  (findallTag case "failure" ++ findallTag case "error").map fun node =>
    let file_ := (List.lookup "file" case.attrs).getD ""
    let classname := (List.lookup "classname" case.attrs).getD ""
    let name := (List.lookup "name" case.attrs).getD ""
    let nodeid :=
      if file_ ≠ "" then file_ ++ "::" ++ name else classname ++ "::" ++ name
    let message :=
      match List.lookup "message" node.attrs with
      | some m => if m = "" then (node.text).getD "" else m
      | none => (node.text).getD ""
    ⟨nodeid, pyStripS message⟩

/-- State of the JUnit XML input on disk.  `ElementTree.parse` raises
`ParseError` on a present file with empty or whitespace-only contents,
which `blank` models, as well as on any other non-well-formed contents
(`invalid`). -/
inductive XmlFile where
  | missing : XmlFile
  | blank : XmlFile
  | invalid : XmlFile
  | doc (root : Xml) : XmlFile

/-- One step of the per-suite loop of `parse_junit`: the suite's
`tests`, `failures + errors` and `skipped` counters are added and its
failed tests appended. -/
def suiteStep (acc : Int × Int × Int × List FailedTest) (suite : Xml) :
    Except Unit (Int × Int × Int × List FailedTest) := do
  let t ← attrInt suite.attrs "tests"
  let fl ← attrInt suite.attrs "failures"
  let er ← attrInt suite.attrs "errors"
  let sk ← attrInt suite.attrs "skipped"
  pure (acc.1 + t, acc.2.1 + fl + er, acc.2.2.1 + sk,
    acc.2.2.2 ++ ((iterTag "testcase" suite).map failedTestsOfCase).flatten)

/-- `parse_junit`: totals summed over all suites and the failed-test
list truncated to the first `MAX_ITEMS`.  Only a missing file yields
the zero result; a present but unparseable (in particular blank) file
raises. -/
def parse_junit (f : XmlFile) : Except Unit (Int × Int × Int × List FailedTest) :=
  match f with
  | .missing => .ok (0, 0, 0, [])
  | .blank => .error ()
  | .invalid => .error ()
  | .doc root => do
    let suites := if root.tag = "testsuite" then [root] else findallTag root "testsuite"
    let (tests, failures, skipped, failed) ← suites.foldlM suiteStep (0, 0, 0, [])
    pure (tests, failures, skipped, failed.take MAX_ITEMS)

/-- One per-file coverage record.  `missing_lines` is carried verbatim
as the source copies it without validation. -/
structure CoverageFile where
  path : String
  percent : ℚ
  missing_lines : Json
deriving Repr

/-- Normalization of one entry of the coverage report's `files` map. -/
def covFileEntry (kv : String × Json) : Except Unit CoverageFile := do
  let info := kv.2
  let summary := pyOr (← info.dget "summary" (.obj [])) (.obj [])
  let pct ← pyFloat (pyOr (← summary.dget "percent_covered" (.num 0)) (.num 0))
  let missing := pyOr (← info.dget "missing_lines" (.arr [])) (.arr [])
  pure ⟨kv.1, roundq2 pct, missing⟩

/-- `parse_coverage`: the rounded global percent and one record per
entry of the `files` map, in map order. -/
def parse_coverage (f : JsonFile) : Except Unit (ℚ × List CoverageFile) := do
  let data ← read_json f
  match data with
  | .obj _ =>
    let totals := pyOr (← data.dget "totals" (.obj [])) (.obj [])
    let total ← pyFloat (← totals.dget "percent_covered" (.num 0))
    let filesJ := pyOr (← data.dget "files" (.obj [])) (.obj [])
    match filesJ with
    | .obj kvs => do
      let files ← kvs.mapM covFileEntry
      pure (roundq2 total, files)
    | _ => .error ()
  | _ => pure (0, [])

/-- Model of Python `str(v)` on a decoded JSON value, to the extent the
severity lookup observes it: strings pass through and no other value
renders as a bare severity word (Python shows `None`, `True`, `False`,
digits, or bracketed container text, none of which is a lowercase
severity name). -/
def pyStr : Json → String
  | .str s => s
  | .bool true => "True"
  | .bool false => "False"
  | .null => "None"
  | .num q => toString q
  | .arr _ => "<list>"
  | .obj _ => "<dict>"

/-- Python `x.strip()`: trims a string, raises `AttributeError` on any
other value. -/
def pyStripStr : Json → Except Unit String
  | .str s => .ok (pyStripS s)
  | _ => .error ()

/-- One normalized security finding. -/
structure BanditIssue where
  filename : Json
  line_number : Int
  severity : String
  confidence : String
  test_id : Json
  test_name : Json
  issue_text : String
deriving Repr

/-- Normalization of one raw security result entry. -/
def normBanditIssue (i : Json) : Except Unit BanditIssue := do
  let filename ← i.dget "filename" (.str "")
  let line ← pyInt (pyOr (← i.dget "line_number" (.num 0)) (.num 0))
  let sev := pyStr (← i.dget "issue_severity" (.str "LOW"))
  let conf := pyStr (← i.dget "issue_confidence" (.str "LOW"))
  let tid ← i.dget "test_id" (.str "")
  let tname ← i.dget "test_name" (.str "")
  let itext ← pyStripStr (pyOr (← i.dget "issue_text" (.str "")) (.str ""))
  pure ⟨filename, line, sev, conf, tid, tname, itext⟩

/-- The blocking computation of `parse_bandit`: with
`threshold = SEVERITY_ORDER.get(fail_on, 0)`, blocking holds iff the
threshold is positive and some issue's lowercased severity maps at or
above it. -/
def banditBlocking (issues : List BanditIssue) (fail_on : String) : Bool :=
  let threshold := sevOrd fail_on
  if threshold > 0 then
    issues.any fun i => decide (threshold ≤ sevOrd (lowerStr i.severity))
  else false

/-- `parse_bandit`: the first `MAX_ITEMS` results normalized, plus the
blocking flag computed over that clipped list. -/
def parse_bandit (f : JsonFile) (fail_on : String) :
    Except Unit (List BanditIssue × Bool) := do
  let data ← read_json f
  match data with
  | .obj _ =>
    let resultsJ := pyOr (← data.dget "results" (.arr [])) (.arr [])
    match resultsJ with
    | .arr xs => do
      let issues ← (xs.take MAX_ITEMS).mapM normBanditIssue
      pure (issues, banditBlocking issues fail_on)
    | _ => .error ()
  | _ => pure ([], false)

/-- One record of the command-status log. -/
structure CommandResult where
  name : String
  command : String
  exit_code : Int
  status : String
deriving Repr, DecidableEq

/-- One line of the command-status log: `none` when the line has fewer
than four tab-separated fields (the line is skipped), an error when the
exit-code field is not an integer. -/
def cmdLine (raw : String) : Except Unit (Option CommandResult) :=
  match (splitOnChar '\t' raw.data).map String.mk with
  | name :: command :: exitStr :: status :: _ =>
    match pyIntStr exitStr with
    | some n => .ok (some ⟨name, command, n, status⟩)
    | none => .error ()
  | _ => .ok none

/-- State of the command-status input on disk. -/
inductive TextFile where
  | missing : TextFile
  | content (s : String) : TextFile

/-- `parse_command_results`: a missing or blank file yields `[]`;
otherwise each line parses via `cmdLine`.  Lines are split at newline
characters (a model of `str.splitlines`; a trailing empty segment is
skipped by the fewer-than-four-fields rule). -/
def parse_command_results (f : TextFile) : Except Unit (List CommandResult) :=
  match f with
  | .missing => .ok []
  | .content s =>
    if pyStripS s = "" then .ok []
    else do
      let opts ← ((splitOnChar '\n' s.data).map String.mk).mapM cmdLine
      pure (opts.filterMap id)

/-- The three core tool names whose command failures count toward the
quality gate. -/
def coreTools : List String := ["ruff", "pyright", "pytest"]

/-- The policy parameters of a run: `--coverage-threshold`,
`--fail-on-quality` and `--fail-on-security`. -/
structure Args where
  coverage_threshold : ℚ
  fail_on_quality : String
  fail_on_security : String
deriving Repr, DecidableEq

/-- The six input artifacts of a run. -/
structure Inputs where
  ruff : JsonFile
  pyright : JsonFile
  junit : XmlFile
  coverage : JsonFile
  bandit : JsonFile
  commands : TextFile

/-- The aggregate `Summary` record. -/
structure Summary where
  ruff_issues : Nat
  pyright_errors : Int
  pyright_warnings : Int
  tests_total : Int
  tests_passed : Int
  tests_failed : Int
  tests_skipped : Int
  coverage : ℚ
  bandit_issues : Nat
  bandit_blocking : Bool
deriving Repr, DecidableEq

/-- Everything `main` derives from the parsed artifacts: the summary,
the derived views, the gate flags and the process exit code. -/
structure RunResult where
  summary : Summary
  below_threshold : List CoverageFile
  command_results : List CommandResult
  command_failures : List CommandResult
  quality_blocking : Bool
  security_blocking : Bool
  blocking : Bool
  exit_code : Nat

/-- The pure aggregation step of `main`, a function of the six parsed
artifacts and the policy parameters.  `sorted(key=lambda x: x.percent)`,
Python's stable ascending sort, is modelled by the stable
`List.insertionSort` under the percent order. -/
def aggregate (ruffR : List Json) (pyR : Int × Int × List Diag)
    (junitR : Int × Int × Int × List FailedTest) (covR : ℚ × List CoverageFile)
    (banditR : List BanditIssue × Bool) (cmdR : List CommandResult)
    (a : Args) : RunResult :=
  let tests_total := junitR.1
  let tests_failed := junitR.2.1
  let tests_skipped := junitR.2.2.1
  let tests_passed := max (tests_total - tests_failed - tests_skipped) 0
  let below :=
    (List.insertionSort (fun x y => x.percent ≤ y.percent)
      (covR.2.filter fun f => decide (f.percent < a.coverage_threshold))).take MAX_ITEMS
  let command_failures :=
    cmdR.filter fun c => coreTools.contains c.name && c.status == "fail"
  let summary : Summary :=
    { ruff_issues := ruffR.length
      pyright_errors := pyR.1
      pyright_warnings := pyR.2.1
      tests_total := tests_total
      tests_passed := tests_passed
      tests_failed := tests_failed
      tests_skipped := tests_skipped
      coverage := covR.1
      bandit_issues := banditR.1.length
      bandit_blocking := banditR.2 }
  let quality_blocking :=
    a.fail_on_quality == "any"
      && (decide (summary.ruff_issues > 0)
        || decide (summary.pyright_errors > 0)
        || decide (summary.tests_failed > 0)
        || decide (summary.coverage < a.coverage_threshold)
        || decide (command_failures.length > 0))
  let blocking := quality_blocking || summary.bandit_blocking
  { summary := summary
    below_threshold := below
    command_results := cmdR
    command_failures := command_failures
    quality_blocking := quality_blocking
    security_blocking := summary.bandit_blocking
    blocking := blocking
    exit_code := if blocking then 1 else 0 }

/-- The whole of `main` after argument parsing, excluding the output
writers: parse the six artifacts in source order, then aggregate.
`sys.exit(1)` on blocking and the implicit exit 0 otherwise are
recorded in `exit_code`. -/
def runMain (inp : Inputs) (a : Args) : Except Unit RunResult := do
  let ruffR ← parse_ruff inp.ruff
  let pyR ← parse_pyright inp.pyright
  let junitR ← parse_junit inp.junit
  let covR ← parse_coverage inp.coverage
  let banditR ← parse_bandit inp.bandit a.fail_on_security
  let cmdR ← parse_command_results inp.commands
  pure (aggregate ruffR pyR junitR covR banditR cmdR a)

/-- The issue-list part of `parse_bandit` (source lines 154-170), used
to state that the normalized issues do not depend on `fail_on`. -/
def banditResults (f : JsonFile) : Except Unit (List BanditIssue) := do
  let data ← read_json f
  match data with
  | .obj _ =>
    let resultsJ := pyOr (← data.dget "results" (.arr [])) (.arr [])
    match resultsJ with
    | .arr xs => (xs.take MAX_ITEMS).mapM normBanditIssue
    | _ => .error ()
  | _ => pure []

/-- The raw severity string of one security result entry, as
`normBanditIssue` reads it: `str(entry.get("issue_severity", "LOW"))`.
Non-object entries make `normBanditIssue` raise, so their value here is
irrelevant. -/
def entrySeverity : Json → String
  | .obj jkvs => pyStr ((jlookup jkvs "issue_severity").getD (.str "LOW"))
  | _ => ""

instance : IsTotal CoverageFile (fun x y => x.percent ≤ y.percent) :=
  ⟨fun _ _ => le_total _ _⟩

instance : IsTrans CoverageFile (fun x y => x.percent ≤ y.percent) :=
  ⟨fun _ _ _ => le_trans⟩

/-- Rounding of zero is zero. -/
theorem roundq2_zero : roundq2 0 = 0 := by
  simp [roundq2]

/-- Applying the Python `or`-default to an array value with an
empty-array default gives back the array. -/
theorem pyOr_arr (xs : List Json) : pyOr (.arr xs) (.arr []) = .arr xs := by
  cases xs <;> simp [pyOr, pyFalsy]

/-- A filter has positive length exactly when some member satisfies the
predicate. -/
theorem filter_length_pos_iff {α : Type _} {p : α → Bool} {l : List α} :
    0 < (l.filter p).length ↔ ∃ c ∈ l, p c = true := by
  rw [List.length_pos, Ne, List.filter_eq_nil_iff]
  push_neg
  simp

/-- A successful bind in `Except` splits into two successful stages. -/
theorem exceptBind_ok_elim {α β : Type _} {x : Except Unit α} {g : α → Except Unit β} {b : β}
    (h : (x >>= g) = .ok b) : ∃ a, x = .ok a ∧ g a = .ok b := by
  cases x with
  | error e => exact absurd h (by simp [Bind.bind, Except.bind])
  | ok a => exact ⟨a, rfl, by simpa [Bind.bind, Except.bind] using h⟩

/-- A successful `mapM` in `Except` relates input and output pointwise. -/
theorem mapM_ok_forall2 {α β : Type _} (f : α → Except Unit β) :
    ∀ (l : List α) (out : List β), l.mapM f = .ok out →
      List.Forall₂ (fun a b => f a = .ok b) l out := by
  intro l
  induction l with
  | nil =>
    intro out h
    simp only [← List.mapM'_eq_mapM, List.mapM'] at h
    cases h
    exact .nil
  | cons a as ih =>
    intro out h
    simp only [← List.mapM'_eq_mapM, List.mapM'] at h ih
    obtain ⟨b, hfa, h2⟩ := exceptBind_ok_elim h
    obtain ⟨bs, hrest, h3⟩ := exceptBind_ok_elim h2
    cases h3
    exact .cons hfa (ih bs hrest)

/-- A pointwise relation that matches two predicates transfers
existential membership between the related lists. -/
theorem forall2_exists_iff {α β : Type _} {R : α → β → Prop} {P : α → Prop} {Q : β → Prop}
    (hPQ : ∀ a b, R a b → (P a ↔ Q b)) :
    ∀ {l₁ : List α} {l₂ : List β}, List.Forall₂ R l₁ l₂ →
      ((∃ a ∈ l₁, P a) ↔ ∃ b ∈ l₂, Q b) := by
  intro l₁ l₂ h
  induction h with
  | nil => simp
  | cons hab _ ih =>
    simp only [List.mem_cons, exists_eq_or_imp]
    rw [hPQ _ _ hab, ih]

/-- Binding a success in `Except` applies the continuation. -/
theorem exceptBind_ok {α β : Type _} (a : α) (g : α → Except Unit β) :
    (Except.ok a >>= g : Except Unit β) = g a := rfl

/-- Mapping over a success in `Except`. -/
theorem exceptMap_ok {α β : Type _} (h : α → β) (a : α) :
    Except.map h (Except.ok a : Except Unit α) = .ok (h a) := rfl

/-- In `Except`, `pure` is `ok`. -/
theorem pureExcept {α : Type _} (a : α) : (pure a : Except Unit α) = .ok a := rfl

/-- Mapping over a pure value in `Except`. -/
theorem exceptMap_pure {α β : Type _} (h : α → β) (a : α) :
    Except.map h (pure a : Except Unit α) = .ok (h a) := rfl

/-- The two components of `parse_bandit`: the normalized issue list is
`banditResults` (independent of `fail_on`) and the flag is
`banditBlocking` applied to it. -/
theorem parse_bandit_eq (f : JsonFile) (fo : String) :
    parse_bandit f fo = (banditResults f).map fun is => (is, banditBlocking is fo) := by
  cases f with
  | missing => rfl
  | blank => rfl
  | invalid => rfl
  | parsed j =>
    cases j with
    | obj kvs =>
      simp only [parse_bandit, banditResults, read_json, exceptBind_ok, Json.dget]
      cases hrj : pyOr ((jlookup kvs "results").getD (.arr [])) (.arr []) <;> rfl
    | null => simp [parse_bandit, banditResults, read_json, exceptBind_ok, pureExcept, exceptMap_pure, exceptMap_ok, banditBlocking]
    | bool b => simp [parse_bandit, banditResults, read_json, exceptBind_ok, pureExcept, exceptMap_pure, exceptMap_ok, banditBlocking]
    | num q => simp [parse_bandit, banditResults, read_json, exceptBind_ok, pureExcept, exceptMap_pure, exceptMap_ok, banditBlocking]
    | str s => simp [parse_bandit, banditResults, read_json, exceptBind_ok, pureExcept, exceptMap_pure, exceptMap_ok, banditBlocking]
    | arr xs => simp [parse_bandit, banditResults, read_json, exceptBind_ok, pureExcept, exceptMap_pure, exceptMap_ok, banditBlocking]

/-- Characterization of the security blocking flag: true exactly when
the threshold ordinal is positive and some issue reaches it. -/
theorem banditBlocking_iff (issues : List BanditIssue) (fo : String) :
    banditBlocking issues fo = true ↔
      0 < sevOrd fo ∧ ∃ i ∈ issues, sevOrd fo ≤ sevOrd (lowerStr i.severity) := by
  simp only [banditBlocking]
  split
  next h => simp [List.any_eq_true, h]
  next h => simp [h]

/-- C5 (corrected): the claim fails when the lower threshold is "none";
at the input below, blocking holds at "low" but not at "none" despite
`sevOrd "none" ≤ sevOrd "low"`. -/
theorem C5_counterexample :
    sevOrd "none" ≤ sevOrd "low" ∧
    parse_bandit
        (JsonFile.parsed (.obj [("results", .arr [.obj [("issue_severity", .str "LOW")]])]))
        "low"
      = .ok ([⟨.str "", 0, "LOW", "LOW", .str "", .str "", ""⟩], true) ∧
    parse_bandit
        (JsonFile.parsed (.obj [("results", .arr [.obj [("issue_severity", .str "LOW")]])]))
        "none"
      = .ok ([⟨.str "", 0, "LOW", "LOW", .str "", .str "", ""⟩], false) :=
  ⟨by decide, rfl, rfl⟩

/-- C5 (amended): over the severity scale, security blocking is
monotone when moving to a lower threshold of positive ordinal — for a
threshold of ordinal 0 ("none" or any unknown string) the flag is
always false instead. -/
theorem C5_security_blocking_monotone (f : JsonFile) (t t' : String)
    (issues : List BanditIssue) (h0 : 0 < sevOrd t') (hle : sevOrd t' ≤ sevOrd t)
    (h : parse_bandit f t = .ok (issues, true)) :
    parse_bandit f t' = .ok (issues, true) := by
  rw [parse_bandit_eq] at h ⊢
  cases hb : banditResults f with
  | error e => rw [hb] at h; cases h
  | ok is =>
    rw [hb, exceptMap_ok] at h
    rw [exceptMap_ok]
    rw [Except.ok.injEq, Prod.mk.injEq] at h
    obtain ⟨rfl, h2⟩ := h
    rw [Except.ok.injEq, Prod.mk.injEq]
    refine ⟨rfl, ?_⟩
    obtain ⟨_, i, hi, hsev⟩ := (banditBlocking_iff _ t).mp h2
    exact (banditBlocking_iff _ t').mpr ⟨h0, i, hi, le_trans hle hsev⟩

/-- C5 witness: a concrete application of the amended monotonicity, from
threshold "high" down to "low" on a single HIGH finding. -/
theorem C5_witness :
    parse_bandit
        (JsonFile.parsed (.obj [("results", .arr [.obj [("issue_severity", .str "HIGH")]])]))
        "low"
      = .ok ([⟨.str "", 0, "HIGH", "LOW", .str "", .str "", ""⟩], true) :=
  C5_security_blocking_monotone _ "high" "low" _ (by decide) (by decide) rfl

/-- C7 (corrected): a present but non-numeric truthy string count makes
the type-check parser raise (Python `int("abc")` raises `ValueError`)
instead of coercing to 0. -/
theorem C7_counterexample :
    parse_pyright (.parsed (.obj [("summary", .obj [("errorCount", .str "abc")])]))
      = .error () := rfl

/-- A non-empty object is truthy. -/
theorem pyFalsy_obj_cons (kv : String × Json) (kvs : List (String × Json)) :
    pyFalsy (.obj (kv :: kvs)) = false := rfl

/-- C7 (amended): a present count that is falsy (null, false, zero, an
empty string, array or object) coerces to 0; a truthy non-numeric count
makes the parse raise instead. -/
theorem C7_falsy_counts_coerce (v w : Json) (hv : pyFalsy v = true) (hw : pyFalsy w = true) :
    parse_pyright
        (.parsed (.obj [("summary", .obj [("errorCount", v), ("warningCount", w)])]))
      = .ok (0, 0, []) := by
  simp [parse_pyright, read_json, exceptBind_ok, Json.dget, jlookup, pyOr, pyFalsy_obj_cons,
    hv, hw, List.lookup, pyInt, pyTrunc, pureExcept, List.mapM.loop]

/-- C7 witness: null and empty-string counts coerce to zero counts. -/
theorem C7_witness :
    parse_pyright
        (.parsed (.obj [("summary", .obj [("errorCount", Json.null), ("warningCount", Json.str "")])]))
      = .ok (0, 0, []) :=
  C7_falsy_counts_coerce .null (.str "") rfl rfl

/-- C3 (corrected): the five JSON/TSV parsers return their zero value on
a missing, empty or whitespace-only file, but the test-results parser
does so only for a missing file — on a present blank file the XML parse
raises. -/
theorem C3_zero_on_missing_or_blank :
    (parse_ruff .missing = .ok [] ∧ parse_ruff .blank = .ok []) ∧
    (parse_pyright .missing = .ok (0, 0, []) ∧ parse_pyright .blank = .ok (0, 0, [])) ∧
    (parse_coverage .missing = .ok (0, []) ∧ parse_coverage .blank = .ok (0, [])) ∧
    (∀ fo : String, parse_bandit .missing fo = .ok ([], false) ∧
      parse_bandit .blank fo = .ok ([], false)) ∧
    (parse_command_results .missing = .ok [] ∧
      ∀ s : String, pyStripS s = "" → parse_command_results (.content s) = .ok []) ∧
    (parse_junit .missing = .ok (0, 0, 0, []) ∧ parse_junit .blank = .error ()) := by
  refine ⟨⟨rfl, rfl⟩, ⟨rfl, rfl⟩, ⟨?_, ?_⟩, fun fo => ⟨?_, ?_⟩, ⟨rfl, fun s hs => ?_⟩, rfl, rfl⟩
  · show Except.ok (roundq2 0, []) = _
    rw [roundq2_zero]
  · show Except.ok (roundq2 0, []) = _
    rw [roundq2_zero]
  · rw [parse_bandit_eq]
    show Except.ok ([], banditBlocking [] fo) = _
    simp [banditBlocking]
  · rw [parse_bandit_eq]
    show Except.ok ([], banditBlocking [] fo) = _
    simp [banditBlocking]
  · simp [parse_command_results, hs]

/-- C3 counterexample: the test-results parser raises on a present but
empty (or whitespace-only) file, so not every parser returns its zero
value on an empty input. -/
theorem C3_counterexample : parse_junit XmlFile.blank = .error () := rfl

/-- C2: the overall blocking flag is the disjunction of the quality and
security gates, and the exit code is 0 exactly when blocking is false
and 1 when it is true. -/
theorem C2_blocking_and_exit_code (ruffR : List Json) (pyR : Int × Int × List Diag)
    (junitR : Int × Int × Int × List FailedTest) (covR : ℚ × List CoverageFile)
    (banditR : List BanditIssue × Bool) (cmdR : List CommandResult) (a : Args) :
    (aggregate ruffR pyR junitR covR banditR cmdR a).blocking =
      ((aggregate ruffR pyR junitR covR banditR cmdR a).quality_blocking
        || (aggregate ruffR pyR junitR covR banditR cmdR a).security_blocking) ∧
    ((aggregate ruffR pyR junitR covR banditR cmdR a).exit_code = 0 ↔
      (aggregate ruffR pyR junitR covR banditR cmdR a).blocking = false) ∧
    ((aggregate ruffR pyR junitR covR banditR cmdR a).blocking = true →
      (aggregate ruffR pyR junitR covR banditR cmdR a).exit_code = 1) := by
  refine ⟨rfl, ?_, ?_⟩
  · have he : (aggregate ruffR pyR junitR covR banditR cmdR a).exit_code =
        if (aggregate ruffR pyR junitR covR banditR cmdR a).blocking then 1 else 0 := rfl
    rw [he]
    cases hb : (aggregate ruffR pyR junitR covR banditR cmdR a).blocking <;> simp
  · intro hb
    have he : (aggregate ruffR pyR junitR covR banditR cmdR a).exit_code =
        if (aggregate ruffR pyR junitR covR banditR cmdR a).blocking then 1 else 0 := rfl
    rw [he, hb]
    rfl

/-- C4: the computed `tests_passed` is `max(total - failed - skipped, 0)`
for every parsed test-results triple, hence never negative. -/
theorem C4_tests_passed (ruffR : List Json) (pyR : Int × Int × List Diag)
    (junitR : Int × Int × Int × List FailedTest) (covR : ℚ × List CoverageFile)
    (banditR : List BanditIssue × Bool) (cmdR : List CommandResult) (a : Args) :
    (aggregate ruffR pyR junitR covR banditR cmdR a).summary.tests_passed =
      max (junitR.1 - junitR.2.1 - junitR.2.2.1) 0 ∧
    0 ≤ (aggregate ruffR pyR junitR covR banditR cmdR a).summary.tests_passed :=
  ⟨rfl, le_max_right _ _⟩

/-- C1: quality blocking holds exactly when fail-on-quality is "any" and
some quality signal fires (lint issues, type errors, failed tests,
coverage below threshold, or a failed core-tool command); type-check
warnings and security findings never affect it (swapping them below
leaves the flag unchanged). -/
theorem C1_quality_blocking_characterization (ruffR : List Json) (e w w' : Int)
    (ds : List Diag) (junitR : Int × Int × Int × List FailedTest)
    (covR : ℚ × List CoverageFile) (banditR banditR' : List BanditIssue × Bool)
    (cmdR : List CommandResult) (a : Args) :
    ((aggregate ruffR (e, w, ds) junitR covR banditR cmdR a).quality_blocking = true ↔
      (a.fail_on_quality = "any" ∧
        (0 < (aggregate ruffR (e, w, ds) junitR covR banditR cmdR a).summary.ruff_issues ∨
          0 < (aggregate ruffR (e, w, ds) junitR covR banditR cmdR a).summary.pyright_errors ∨
          0 < (aggregate ruffR (e, w, ds) junitR covR banditR cmdR a).summary.tests_failed ∨
          (aggregate ruffR (e, w, ds) junitR covR banditR cmdR a).summary.coverage
            < a.coverage_threshold ∨
          ∃ c ∈ (aggregate ruffR (e, w, ds) junitR covR banditR cmdR a).command_results,
            c.name ∈ coreTools ∧ c.status = "fail"))) ∧
    (aggregate ruffR (e, w, ds) junitR covR banditR cmdR a).quality_blocking =
      (aggregate ruffR (e, w', ds) junitR covR banditR' cmdR a).quality_blocking := by
  refine ⟨?_, rfl⟩
  have hq : (aggregate ruffR (e, w, ds) junitR covR banditR cmdR a).quality_blocking =
      (a.fail_on_quality == "any"
        && (decide (0 < ruffR.length) || decide (0 < e) || decide (0 < junitR.2.1)
          || decide (covR.1 < a.coverage_threshold)
          || decide (0 < (cmdR.filter fun c =>
              coreTools.contains c.name && c.status == "fail").length))) := rfl
  have hcmd : 0 < (cmdR.filter fun c =>
      coreTools.contains c.name && c.status == "fail").length ↔
      ∃ c ∈ cmdR, c.name ∈ coreTools ∧ c.status = "fail" := by
    rw [filter_length_pos_iff]
    constructor
    · rintro ⟨c, hc, hb⟩
      rw [Bool.and_eq_true] at hb
      exact ⟨c, hc, List.elem_iff.mp hb.1, by simpa using hb.2⟩
    · rintro ⟨c, hc, hmem, hst⟩
      refine ⟨c, hc, ?_⟩
      rw [Bool.and_eq_true]
      exact ⟨List.elem_iff.mpr hmem, by simpa using hst⟩
  rw [hq, Bool.and_eq_true, Bool.or_eq_true, Bool.or_eq_true, Bool.or_eq_true,
    Bool.or_eq_true, beq_iff_eq, decide_eq_true_iff, decide_eq_true_iff,
    decide_eq_true_iff, decide_eq_true_iff, decide_eq_true_iff]
  constructor
  · rintro ⟨hfq, hrest⟩
    refine ⟨hfq, ?_⟩
    rcases hrest with (((h | h) | h) | h) | h
    · exact Or.inl h
    · exact Or.inr (Or.inl h)
    · exact Or.inr (Or.inr (Or.inl h))
    · exact Or.inr (Or.inr (Or.inr (Or.inl h)))
    · exact Or.inr (Or.inr (Or.inr (Or.inr (hcmd.mp h))))
  · rintro ⟨hfq, hrest⟩
    refine ⟨hfq, ?_⟩
    rcases hrest with h | h | h | h | h
    · exact Or.inl (Or.inl (Or.inl (Or.inl h)))
    · exact Or.inl (Or.inl (Or.inl (Or.inr h)))
    · exact Or.inl (Or.inl (Or.inr h))
    · exact Or.inl (Or.inr h)
    · exact Or.inr (hcmd.mpr h)

/-- C8: the below-threshold view holds exactly the coverage files
strictly below the threshold (all of them when at most `MAX_ITEMS`
qualify), sorted ascending by percent, truncated to `MAX_ITEMS` only
after sorting, so every file it drops has a percent at least as large
as every file it keeps. -/
theorem C8_below_threshold_view (ruffR : List Json) (pyR : Int × Int × List Diag)
    (junitR : Int × Int × Int × List FailedTest) (covR : ℚ × List CoverageFile)
    (banditR : List BanditIssue × Bool) (cmdR : List CommandResult) (a : Args) :
    (∀ f ∈ (aggregate ruffR pyR junitR covR banditR cmdR a).below_threshold,
        f ∈ covR.2 ∧ f.percent < a.coverage_threshold) ∧
    List.Sorted (fun x y : CoverageFile => x.percent ≤ y.percent)
      (aggregate ruffR pyR junitR covR banditR cmdR a).below_threshold ∧
    (aggregate ruffR pyR junitR covR banditR cmdR a).below_threshold.length =
      min (covR.2.filter fun f => decide (f.percent < a.coverage_threshold)).length
        MAX_ITEMS ∧
    ((covR.2.filter fun f => decide (f.percent < a.coverage_threshold)).length ≤ MAX_ITEMS →
      (aggregate ruffR pyR junitR covR banditR cmdR a).below_threshold.Perm
        (covR.2.filter fun f => decide (f.percent < a.coverage_threshold))) ∧
    (∀ f ∈ covR.2, f.percent < a.coverage_threshold →
      f ∉ (aggregate ruffR pyR junitR covR banditR cmdR a).below_threshold →
      ∀ g ∈ (aggregate ruffR pyR junitR covR banditR cmdR a).below_threshold,
        g.percent ≤ f.percent) := by
  have hbt : (aggregate ruffR pyR junitR covR banditR cmdR a).below_threshold =
      (List.insertionSort (fun x y => x.percent ≤ y.percent)
        (covR.2.filter fun f => decide (f.percent < a.coverage_threshold))).take
        MAX_ITEMS := rfl
  rw [hbt]
  set F := covR.2.filter fun f => decide (f.percent < a.coverage_threshold) with hF
  set S := List.insertionSort (fun x y => x.percent ≤ y.percent) F with hS
  have hsorted : List.Sorted (fun x y : CoverageFile => x.percent ≤ y.percent) S :=
    List.sorted_insertionSort _ F
  have hperm : S.Perm F := List.perm_insertionSort _ F
  refine ⟨?_, ?_, ?_, ?_, ?_⟩
  · intro f hf
    have hfF : f ∈ F := hperm.subset (List.mem_of_mem_take hf)
    have := List.mem_filter.mp hfF
    exact ⟨this.1, of_decide_eq_true this.2⟩
  · exact List.Pairwise.sublist (List.take_sublist _ _) hsorted
  · rw [List.length_take, hperm.length_eq, Nat.min_comm]
  · intro hle
    have : S.take MAX_ITEMS = S := List.take_of_length_le (by rw [hperm.length_eq]; exact hle)
    rw [this]
    exact hperm
  · intro f hfmem hflt hfnot g hg
    have hfF : f ∈ F := List.mem_filter.mpr ⟨hfmem, decide_eq_true hflt⟩
    have hfS : f ∈ S := hperm.mem_iff.mpr hfF
    have hsplit : f ∈ S.take MAX_ITEMS ∨ f ∈ S.drop MAX_ITEMS := by
      rw [← List.take_append_drop MAX_ITEMS S] at hfS
      exact List.mem_append.mp hfS
    rcases hsplit with h | h
    · exact absurd h hfnot
    · exact hsorted.rel_of_mem_take_of_mem_drop hg h

/-- Binding a failure in `Except` propagates the failure. -/
theorem exceptBind_err {α β : Type _} (g : α → Except Unit β) :
    (Except.error () >>= g : Except Unit β) = .error () := rfl

/-- The severity a successfully normalized issue carries is the raw
entry's severity string. -/
theorem normBanditIssue_severity {j : Json} {i : BanditIssue}
    (h : normBanditIssue j = .ok i) : i.severity = entrySeverity j := by
  cases j with
  | obj jkvs =>
    simp only [normBanditIssue, Json.dget, exceptBind_ok] at h
    obtain ⟨ln, hln, h2⟩ := exceptBind_ok_elim h
    obtain ⟨tx, htx, h3⟩ := exceptBind_ok_elim h2
    cases h3
    rfl
  | null => simp [normBanditIssue, Json.dget, exceptBind_err] at h
  | bool b => simp [normBanditIssue, Json.dget, exceptBind_err] at h
  | num q => simp [normBanditIssue, Json.dget, exceptBind_err] at h
  | str s => simp [normBanditIssue, Json.dget, exceptBind_err] at h
  | arr xs => simp [normBanditIssue, Json.dget, exceptBind_err] at h

/-- On an object whose `results` key holds an array, `banditResults`
normalizes the first `MAX_ITEMS` entries. -/
theorem banditResults_obj {kvs : List (String × Json)} {xs : List Json}
    (hres : jlookup kvs "results" = some (.arr xs)) :
    banditResults (.parsed (.obj kvs)) = (xs.take MAX_ITEMS).mapM normBanditIssue := by
  simp only [banditResults, read_json, exceptBind_ok, Json.dget, hres, Option.getD, pyOr_arr]

/-- Elimination of a successful `parse_bandit` over an object with a
results array. -/
theorem parse_bandit_ok_elim {kvs : List (String × Json)} {xs : List Json} {fo : String}
    {issues : List BanditIssue} {b : Bool}
    (hres : jlookup kvs "results" = some (.arr xs))
    (h : parse_bandit (.parsed (.obj kvs)) fo = .ok (issues, b)) :
    (xs.take MAX_ITEMS).mapM normBanditIssue = .ok issues ∧ b = banditBlocking issues fo := by
  rw [parse_bandit_eq, banditResults_obj hres] at h
  cases hm : (xs.take MAX_ITEMS).mapM normBanditIssue with
  | error e => rw [hm] at h; cases h
  | ok is =>
    rw [hm, exceptMap_ok, Except.ok.injEq, Prod.mk.injEq] at h
    obtain ⟨h1, h2⟩ := h
    subst h1
    exact ⟨rfl, h2.symm⟩

/-- C6: with a results array present, threshold "none" never blocks, a
positive threshold blocks exactly when an entry among the first
`MAX_ITEMS` results has a severity that lowercased maps at or above the
threshold ordinal, and entries beyond the first `MAX_ITEMS` never
influence the outcome (any input sharing the same first `MAX_ITEMS`
entries parses identically). -/
theorem C6_security_blocking_first50 (kvs : List (String × Json)) (xs : List Json)
    (fo : String) (issues : List BanditIssue) (b : Bool)
    (hres : jlookup kvs "results" = some (.arr xs))
    (h : parse_bandit (.parsed (.obj kvs)) fo = .ok (issues, b)) :
    (fo = "none" → b = false) ∧
    (fo = "low" ∨ fo = "medium" ∨ fo = "high" →
      (b = true ↔ ∃ j ∈ xs.take MAX_ITEMS,
        sevOrd fo ≤ sevOrd (lowerStr (entrySeverity j)))) ∧
    (∀ (kvs' : List (String × Json)) (xs' : List Json),
      jlookup kvs' "results" = some (.arr xs') →
      xs.take MAX_ITEMS = xs'.take MAX_ITEMS →
      parse_bandit (.parsed (.obj kvs')) fo = .ok (issues, b)) := by
  obtain ⟨hmap, hb⟩ := parse_bandit_ok_elim hres h
  have hf2 := mapM_ok_forall2 normBanditIssue (xs.take MAX_ITEMS) issues hmap
  have hiff := forall2_exists_iff
    (P := fun j => sevOrd fo ≤ sevOrd (lowerStr (entrySeverity j)))
    (Q := fun i => sevOrd fo ≤ sevOrd (lowerStr i.severity))
    (fun j i hji => by
      show sevOrd fo ≤ sevOrd (lowerStr (entrySeverity j)) ↔
        sevOrd fo ≤ sevOrd (lowerStr i.severity)
      rw [normBanditIssue_severity hji]) hf2
  refine ⟨?_, ?_, ?_⟩
  · rintro rfl
    rw [hb]
    simp [banditBlocking, sevOrd, SEVERITY_ORDER]
  · intro hfo
    have hpos : 0 < sevOrd fo := by
      rcases hfo with rfl | rfl | rfl <;> decide
    rw [hb, banditBlocking_iff]
    constructor
    · rintro ⟨_, hex⟩
      exact hiff.mpr hex
    · intro hex
      exact ⟨hpos, hiff.mp hex⟩
  · intro kvs' xs' hres' htake
    rw [parse_bandit_eq, banditResults_obj hres', ← htake, hmap, exceptMap_ok, ← hb]

/-- C6 witness: a single HIGH finding at threshold "medium" blocks, and
the characterization holds at this concrete input. -/
theorem C6_witness :
    (("medium" : String) = "none" → true = false) ∧
    (("medium" : String) = "low" ∨ ("medium" : String) = "medium" ∨
        ("medium" : String) = "high" →
      (true = true ↔ ∃ j ∈ ([Json.obj [("issue_severity", Json.str "HIGH")]]).take MAX_ITEMS,
        sevOrd "medium" ≤ sevOrd (lowerStr (entrySeverity j)))) ∧
    (∀ (kvs' : List (String × Json)) (xs' : List Json),
      jlookup kvs' "results" = some (.arr xs') →
      ([Json.obj [("issue_severity", Json.str "HIGH")]]).take MAX_ITEMS = xs'.take MAX_ITEMS →
      parse_bandit (.parsed (.obj kvs')) "medium"
        = .ok ([⟨.str "", 0, "HIGH", "LOW", .str "", .str "", ""⟩], true)) :=
  C6_security_blocking_first50
    [("results", .arr [.obj [("issue_severity", .str "HIGH")]])]
    [Json.obj [("issue_severity", Json.str "HIGH")]] "medium"
    [⟨.str "", 0, "HIGH", "LOW", .str "", .str "", ""⟩] true rfl rfl

/-- Elimination of a successful run: every parser succeeded and the
result is the aggregate of their outputs, with the issue list coming
from `banditResults`. -/
theorem runMain_ok_elim {inp : Inputs} {a : Args} {r : RunResult}
    (h : runMain inp a = .ok r) :
    ∃ ruffR pyR junitR covR banditIs cmdR,
      parse_ruff inp.ruff = .ok ruffR ∧
      parse_pyright inp.pyright = .ok pyR ∧
      parse_junit inp.junit = .ok junitR ∧
      parse_coverage inp.coverage = .ok covR ∧
      banditResults inp.bandit = .ok banditIs ∧
      parse_command_results inp.commands = .ok cmdR ∧
      r = aggregate ruffR pyR junitR covR
        (banditIs, banditBlocking banditIs a.fail_on_security) cmdR a := by
  simp only [runMain] at h
  obtain ⟨ruffR, h1, h⟩ := exceptBind_ok_elim h
  obtain ⟨pyR, h2, h⟩ := exceptBind_ok_elim h
  obtain ⟨junitR, h3, h⟩ := exceptBind_ok_elim h
  obtain ⟨covR, h4, h⟩ := exceptBind_ok_elim h
  obtain ⟨banditR, h5, h⟩ := exceptBind_ok_elim h
  obtain ⟨cmdR, h6, h⟩ := exceptBind_ok_elim h
  cases h
  rw [parse_bandit_eq] at h5
  cases hbr : banditResults inp.bandit with
  | error e => rw [hbr] at h5; cases h5
  | ok is =>
    rw [hbr, exceptMap_ok, Except.ok.injEq] at h5
    exact ⟨ruffR, pyR, junitR, covR, is, cmdR, h1, h2, h3, h4, rfl, h6, by rw [← h5]⟩

/-- C9: the summary counter fields are identical across two successful
runs over the same input artifacts, whatever the policy parameters. -/
theorem C9_counters_policy_independent (inp : Inputs) (a a' : Args) (r r' : RunResult)
    (h : runMain inp a = .ok r) (h' : runMain inp a' = .ok r') :
    r.summary.ruff_issues = r'.summary.ruff_issues ∧
    r.summary.pyright_errors = r'.summary.pyright_errors ∧
    r.summary.pyright_warnings = r'.summary.pyright_warnings ∧
    r.summary.tests_total = r'.summary.tests_total ∧
    r.summary.tests_passed = r'.summary.tests_passed ∧
    r.summary.tests_failed = r'.summary.tests_failed ∧
    r.summary.tests_skipped = r'.summary.tests_skipped ∧
    r.summary.coverage = r'.summary.coverage ∧
    r.summary.bandit_issues = r'.summary.bandit_issues := by
  obtain ⟨ruffR, pyR, junitR, covR, is, cmdR, h1, h2, h3, h4, h5, h6, hr⟩ :=
    runMain_ok_elim h
  obtain ⟨ruffR', pyR', junitR', covR', is', cmdR', h1', h2', h3', h4', h5', h6', hr'⟩ :=
    runMain_ok_elim h'
  rw [h1] at h1'
  rw [h2] at h2'
  rw [h3] at h3'
  rw [h4] at h4'
  rw [h5] at h5'
  rw [h6] at h6'
  cases h1'
  cases h2'
  cases h3'
  cases h4'
  cases h5'
  cases h6'
  subst hr
  subst hr'
  exact ⟨rfl, rfl, rfl, rfl, rfl, rfl, rfl, rfl, rfl⟩

/-- C9 witness: two runs over the same (all-missing) inputs with
different policy parameters agree on every summary counter. -/
theorem C9_witness :
    (0 : Nat) = 0 ∧ (0 : Int) = 0 ∧ (0 : Int) = 0 ∧ (0 : Int) = 0 ∧
    (0 : Int) = 0 ∧ (0 : Int) = 0 ∧ (0 : Int) = 0 ∧
    roundq2 0 = roundq2 0 ∧ (0 : Nat) = 0 :=
  C9_counters_policy_independent
    ⟨.missing, .missing, .missing, .missing, .missing, .missing⟩
    ⟨80, "any", "none"⟩ ⟨0, "none", "high"⟩ _ _ rfl rfl

/-- C10: with a results array of the security report present, the
summary's security issue count is the array length clipped at
`MAX_ITEMS`, hence never above `MAX_ITEMS`, while the lint issue count
is the full lint array length, uncapped. -/
theorem C10_bandit_count_capped (inp : Inputs) (a : Args) (r : RunResult)
    (kvs : List (String × Json)) (xs ys : List Json)
    (hbandit : inp.bandit = .parsed (.obj kvs))
    (hres : jlookup kvs "results" = some (.arr xs))
    (hruff : inp.ruff = .parsed (.arr ys))
    (h : runMain inp a = .ok r) :
    r.summary.bandit_issues = min xs.length MAX_ITEMS ∧
    r.summary.bandit_issues ≤ MAX_ITEMS ∧
    r.summary.ruff_issues = ys.length := by
  obtain ⟨ruffR, pyR, junitR, covR, is, cmdR, h1, h2, h3, h4, h5, h6, hr⟩ :=
    runMain_ok_elim h
  subst hr
  rw [hbandit, banditResults_obj hres] at h5
  have hl2 := List.Forall₂.length_eq (mapM_ok_forall2 normBanditIssue _ _ h5)
  rw [List.length_take] at hl2
  have hlen : is.length = min xs.length MAX_ITEMS := by
    rw [← hl2, Nat.min_comm]
  rw [hruff] at h1
  have hys : ys = ruffR := by
    have hpr : parse_ruff (.parsed (.arr ys)) = .ok ys := rfl
    rw [hpr, Except.ok.injEq] at h1
    exact h1
  refine ⟨hlen, ?_, ?_⟩
  · show is.length ≤ MAX_ITEMS
    rw [hlen]
    exact Nat.min_le_right _ _
  · show ruffR.length = ys.length
    rw [hys]

/-- C10 witness: one raw result entry yields a count of one (the
minimum with `MAX_ITEMS`), and two lint findings count as two. -/
theorem C10_witness :
    (1 : Nat) = min 1 MAX_ITEMS ∧ (1 : Nat) ≤ MAX_ITEMS ∧ (2 : Nat) = 2 :=
  C10_bandit_count_capped
    ⟨.parsed (.arr [.null, .null]), .missing, .missing, .missing,
      .parsed (.obj [("results", .arr [.obj []])]), .missing⟩
    ⟨80, "any", "none"⟩ _ [("results", .arr [.obj []])] [.obj []] [.null, .null]
    rfl rfl rfl rfl
